import Mathlib

/-
Verification of src/api/shortlink.py (Studio Comanda shortlink service).

The Python module is shallowly embedded below.  External collaborators
(the Python standard library url parser, the hashlib SHA-256 function,
the random source, and the Supabase store transport) are modelled as
explicit parameters: the url parser as a function producing scheme and
netloc, the hash as an arbitrary hex-digest function, randomness as an
index oracle, and store transport outcomes as boolean oracles.  The
store itself is a list of records, and every function returns the store
calls it issued so that we can reason about which requests touch the
store.
-/

set_option maxHeartbeats 1000000

namespace Shortlink

/-- Python string.ascii_lowercase. -/
def ascii_lowercase : String := "abcdefghijklmnopqrstuvwxyz"

/-- Python string.ascii_uppercase. -/
def ascii_uppercase : String := "ABCDEFGHIJKLMNOPQRSTUVWXYZ"

/-- Python string.ascii_letters. -/
def ascii_letters : String := ascii_lowercase ++ ascii_uppercase

/-- Python string.digits. -/
def str_digits : String := "0123456789"

/-- SHORTLINK_LENGTH = 7 (line 23 of shortlink.py). -/
def SHORTLINK_LENGTH : Nat := 7

/-- The 62-character alphabet `string.ascii_letters + string.digits`
used by both the generator and the validator (lines 29 and 36). -/
def alnumChars : List Char := (ascii_letters ++ str_digits).data

/-- generate_short_code (lines 27-30): `random.choice(chars)` repeated
`length` times.  The random source is modelled as an index oracle
`rand`; position i receives the character `chars[rand i % 62]`. -/
def generate_short_code (rand : Nat → Nat) (length : Nat) : String :=
  String.mk ((List.range length).map
    (fun i => alnumChars.getD (rand i % alnumChars.length) 'a'))

/-- validate_short_code (lines 32-36): false when the code is empty or
not of length SHORTLINK_LENGTH, otherwise true iff every character is
in the 62-character alphabet. -/
def validate_short_code (code : String) : Bool :=
  if code = ("") || code.length != SHORTLINK_LENGTH then false
  else code.data.all (fun c => alnumChars.contains c)

/-- Specification-side predicate: c lies in the 62-character
alphanumeric alphabet, expressed by ASCII code ranges
(a-z = 97..122, A-Z = 65..90, 0-9 = 48..57). -/
def isAlnum62 (c : Char) : Prop :=
  (97 ≤ c.toNat ∧ c.toNat ≤ 122) ∨
  (65 ≤ c.toNat ∧ c.toNat ≤ 90) ∨
  (48 ≤ c.toNat ∧ c.toNat ≤ 57)

instance (c : Char) : Decidable (isAlnum62 c) := by
  unfold isAlnum62; infer_instance

/-- hash_ip (lines 46-49): SHA-256 of ip++salt, truncated to the first
16 hex characters.  hashlib is an external library; it is modelled by
the parameter sha giving the full 64-character lowercase hex digest,
and os.getenv by the parameter getenv. -/
def hash_ip (getenv : String → Option String) (sha : String → String)
    (ip : String) : String :=
  let salt := (getenv ("IP_SALT")).getD ("studiocomanda_salt_2025")
  String.mk ((sha (ip ++ salt)).data.take 16)

/-- ADMIN_PASSWORD (line 21): configured admin shared secret with its
hardcoded default.  It is never read anywhere else in the module. -/
def ADMIN_PASSWORD (getenv : String → Option String) : String :=
  (getenv ("ADMIN_PASSWORD")).getD ("StudioComanda2025!")

/-- One row of the shortlinks table, with the analytics columns that
the PATCH on resolution writes. -/
structure StoreRecord where
  short_id : String
  destination_url : String
  access_count : Nat
  original_filename : String
  content_type : String
  created_at : String
  last_accessed : Option String
  last_user_agent : Option String
  last_ip_hash : Option String
deriving DecidableEq, Repr

/-- The Supabase filter `shortlinks?short_id=eq.{code}`: the records
whose short_id equals the code. -/
def storeSelect (store : List StoreRecord) (code : String) :
    List StoreRecord :=
  store.filter (fun r => r.short_id == code)

/-- Python `a or b` on strings: b when a is empty, else a. -/
def pyOrStr (a b : String) : String := if a = ("") then b else a

/-- The record inserted by create_shortlink (lines 94-101):
access_count 0, fixed content_type, created_at the current UTC time,
original_filename `description or 'Generato via API'`. -/
def newRecord (destination_url : String) (description : Option String)
    (now short_code : String) : StoreRecord :=
  { short_id := short_code
    destination_url := destination_url
    access_count := 0
    original_filename := pyOrStr (description.getD ("")) ("Generato via API")
    content_type := "application/pdf"
    created_at := now
    last_accessed := none
    last_user_agent := none
    last_ip_hash := none }

/-- A request issued to the external store via query_supabase, with the
Supabase REST endpoint it targets. -/
inductive StoreCall where
  | get (endpoint : String)
  | post (endpoint : String)
  | patch (endpoint : String)
deriving DecidableEq, Repr

/-- Tests whether a store call is one of the uniqueness/lookup GETs. -/
def StoreCall.isGet : StoreCall → Bool
  | .get _ => true
  | _ => false

/-- The retry loop of create_shortlink (lines 85-105), with explicit
fuel (remaining attempts), attempt index i, and accumulated store-call
log.  rand i is the randomness of attempt i; insertOk i tells whether
the POST of attempt i returned a truthy representation. -/
def create_go (rand : Nat → Nat → Nat) (insertOk : Nat → Bool)
    (now destination_url : String) (description : Option String)
    (store : List StoreRecord) :
    Nat → Nat → List StoreCall →
      Except String String × List StoreRecord × List StoreCall
  | 0, _, calls => (.error ("Impossibile generare shortlink unico"), store, calls)
  | fuel+1, i, calls =>
    let short_code := generate_short_code (rand i) SHORTLINK_LENGTH
    let calls1 := calls ++ [.get (("shortlinks?short_id=eq.") ++ short_code)]
    let existing := storeSelect store short_code
    if existing.length > 0 then
      create_go rand insertOk now destination_url description store fuel (i+1) calls1
    else
      let calls2 := calls1 ++ [.post ("shortlinks")]
      if insertOk i then
        (.ok short_code,
         store ++ [newRecord destination_url description now short_code],
         calls2)
      else
        create_go rand insertOk now destination_url description store fuel (i+1) calls2

/-- create_shortlink (lines 81-107): max_attempts = 5, starting with
attempt 0 and an empty call log. -/
def create_shortlink (rand : Nat → Nat → Nat) (insertOk : Nat → Bool)
    (now destination_url : String) (description : Option String)
    (store : List StoreRecord) :
    Except String String × List StoreRecord × List StoreCall :=
  create_go rand insertOk now destination_url description store 5 0 []

/-- Specification-side search: the first attempt index in the window
[i, i+n) whose test succeeds. -/
def firstOk (ok : Nat → Bool) : Nat → Nat → Option Nat
  | 0, _ => none
  | n+1, i => if ok i then some i else firstOk ok n (i+1)

/-- Attempt j succeeds when the uniqueness query returns no record with
that short_id and the insert returns a truthy result. -/
def attemptOk (rand : Nat → Nat → Nat) (insertOk : Nat → Bool)
    (store : List StoreRecord) (j : Nat) : Bool :=
  (storeSelect store (generate_short_code (rand j) SHORTLINK_LENGTH)).isEmpty
    && insertOk j

/-- A JSON value as used in the responses of this module. -/
inductive Jv where
  | s (v : String)
  | b (v : Bool)
deriving DecidableEq, Repr

/-- A response body: a JSON object, the branded HTML error page keyed
by its headline message (render_error_page, lines 109-175), or the
small HTML body flask redirect produces. -/
inductive RBody where
  | json (fields : List (String × Jv))
  | page (message : String)
  | redirectBody (location : String)
deriving DecidableEq, Repr

/-- An HTTP response: status, extra headers, body. -/
structure HResponse where
  status : Nat
  headers : List (String × String)
  body : RBody
deriving DecidableEq, Repr

/-- flask redirect(destination_url, code=302): a 302 with a Location
header. -/
def redirectResp (location : String) : HResponse :=
  { status := 302
    headers := [(("Location"), location)]
    body := .redirectBody location }

/-- render_error_page (lines 109-175): the branded HTML page carrying
the message, with the given status. -/
def render_error_page (code : Nat) (message : String) : HResponse :=
  { status := code, headers := [], body := .page message }

/-- flask jsonify plus a status code. -/
def jsonResp (code : Nat) (fields : List (String × Jv)) : HResponse :=
  { status := code, headers := [], body := .json fields }

/-- The three CORS headers of add_cors_headers (lines 184-186). -/
def corsHeaders : List (String × String) :=
  [(("Access-Control-Allow-Origin"), ("*")),
   (("Access-Control-Allow-Methods"), ("GET, POST, OPTIONS")),
   (("Access-Control-Allow-Headers"), ("Content-Type, Authorization"))]

/-- add_cors_headers (lines 183-187). -/
def add_cors_headers (r : HResponse) : HResponse :=
  { r with headers := r.headers ++ corsHeaders }

/-- urlparse output, restricted to the two fields the module reads. -/
structure UrlParts where
  scheme : String
  netloc : String
deriving DecidableEq, Repr

/-- The inbound Flask request: method, catch-all path, parsed JSON
body (none models a missing or unparsable body), Host header,
User-Agent header, the client address sources, and the auth query
parameter, which exists on requests but is never read by the
handler. -/
structure HRequest where
  method : String
  path : String
  jsonBody : Option (List (String × String))
  host : String
  userAgent : Option String
  xForwardedFor : String
  xRealIp : Option String
  remoteAddr : Option String
  queryAuth : Option String
deriving DecidableEq, Repr

/-- Python dict lookup on the JSON object. -/
def dictGet (d : List (String × String)) (k : String) : Option String :=
  (d.find? (fun p => p.1 == k)).map (fun p => p.2)

/-- get_client_ip (lines 38-44): first entry of X-Forwarded-For,
stripped, else X-Real-IP, else REMOTE_ADDR defaulting to 0.0.0.0. -/
def get_client_ip (req : HRequest) : String :=
  pyOrStr (((req.xForwardedFor.splitOn (",")).headD ("")).trim)
    (pyOrStr (req.xRealIp.getD ("")) (req.remoteAddr.getD ("0.0.0.0")))

/-- Per-invocation environment: randomness of the generator, store
outcomes (whether each POST returns a truthy representation, whether
the lookup GET raises, whether the analytics PATCH raises, and the
exception text), and the current UTC time. -/
structure Oracle where
  rand : Nat → Nat → Nat
  insertOk : Nat → Bool
  getFails : Bool
  patchFails : Bool
  errMsg : String
  now : String

/-- The analytics PATCH applied to the store (lines 240-246): every
record with the given short_id receives the new access_count,
last_accessed, last_user_agent and last_ip_hash. -/
def patchStore (store : List StoreRecord) (code : String) (count : Nat)
    (la ua iph : String) : List StoreRecord :=
  store.map (fun r =>
    if r.short_id == code then
      { r with access_count := count
               last_accessed := some la
               last_user_agent := some ua
               last_ip_hash := some iph }
    else r)

/-- handler (lines 177-269), the single catch-all route.  Returns the
response, the resulting store, and the log of store calls issued.
parse models urllib.parse.urlparse, getenv models os.getenv, sha
models the hashlib SHA-256 hex digest. -/
def handler (parse : String → UrlParts) (getenv : String → Option String)
    (sha : String → String) (o : Oracle) (req : HRequest)
    (store : List StoreRecord) :
    HResponse × List StoreRecord × List StoreCall :=
  if req.path = ("api/create") ∧ req.method = ("POST") then
    let data := req.jsonBody
    if data.isNone || (data.getD []).isEmpty
        || (dictGet (data.getD []) ("destination_url")).isNone then
      (jsonResp 400 [(("error"), .s ("destination_url richiesto"))], store, [])
    else
      let destination_url := (dictGet (data.getD []) ("destination_url")).getD ("")
      let description := (dictGet (data.getD []) ("description")).getD ("Generato via API")
      let parsed := parse destination_url
      if parsed.scheme = ("") ∨ parsed.netloc = ("") then
        (jsonResp 400 [(("error"), .s ("URL destinazione non valido"))], store, [])
      else
        match create_shortlink o.rand o.insertOk o.now destination_url
            (some description) store with
        | (.error e, store2, calls) =>
          (jsonResp 500 [(("error"), .s (("Errore creazione: ") ++ e))],
           store2, calls)
        | (.ok short_code, store2, calls) =>
          let domain := pyOrStr req.host ("studiocomanda.it")
          let short_url := ("https://") ++ domain ++ ("/") ++ short_code
          (add_cors_headers (jsonResp 200
            [(("success"), .b true),
             (("short_code"), .s short_code),
             (("short_url"), .s short_url),
             (("destination_url"), .s destination_url),
             (("description"), .s description)]), store2, calls)
  else if req.path ≠ ("") ∧ req.path.length ≤ SHORTLINK_LENGTH
      ∧ validate_short_code req.path = true then
    let short_code := req.path
    let getCall := StoreCall.get (("shortlinks?short_id=eq.") ++ short_code
      ++ ("&select=destination_url,access_count"))
    if o.getFails then
      (render_error_page 500 (("Errore server: ") ++ o.errMsg), store, [getCall])
    else
      match storeSelect store short_code with
      | [] => (render_error_page 404 ("Link non trovato"), store, [getCall])
      | shortlink :: _ =>
        let destination_url := shortlink.destination_url
        let current_count := shortlink.access_count
        let patchCall := StoreCall.patch (("shortlinks?short_id=eq.") ++ short_code)
        let store2 :=
          if o.patchFails then store
          else patchStore store short_code (current_count + 1) o.now
            (String.mk ((req.userAgent.getD ("Unknown")).data.take 500))
            (hash_ip getenv sha (get_client_ip req))
        (redirectResp destination_url, store2, [getCall, patchCall])
  else if req.path = ("status") then
    (jsonResp 200 [(("status"), .s ("ok")),
      (("service"), .s ("Studio Comanda Shortlinks")),
      (("version"), .s ("1.0")),
      (("timestamp"), .s o.now)], store, [])
  else
    (render_error_page 404 ("Pagina non trovata"), store, [])

/-- Concrete absolute URL used by the witnesses. -/
def wUrl : String := "https://example.com/doc.pdf"

/-- Concrete url parser used by the witnesses: recognises wUrl. -/
def wParse : String → UrlParts := fun u =>
  if u = wUrl then { scheme := "https", netloc := "example.com" }
  else { scheme := "", netloc := "" }

/-- Concrete environment with every variable unset. -/
def wGetenv : String → Option String := fun _ => none

/-- Concrete stand-in SHA-256 hex digest used by the witnesses. -/
def wSha : String → String := fun _ => String.mk (List.replicate 64 'f')

/-- Concrete oracle: identity-position randomness (producing the code
abcdefg), every insert succeeding, no transport failures. -/
def wOracle : Oracle :=
  { rand := fun _ p => p
    insertOk := fun _ => true
    getFails := false
    patchFails := false
    errMsg := "Timeout database"
    now := "2025-01-01T00:00:00" }

/-- Concrete GET request with the given path. -/
def wReq (p : String) : HRequest :=
  { method := "GET"
    path := p
    jsonBody := none
    host := "studiocomanda.it"
    userAgent := some ("UA")
    xForwardedFor := "1.2.3.4"
    xRealIp := none
    remoteAddr := none
    queryAuth := none }

/-- Concrete well-formed create request. -/
def wCreateReq : HRequest :=
  { wReq ("api/create") with
      method := "POST"
      jsonBody := some [(("destination_url"), wUrl), (("description"), ("Invoice"))] }

/-- Concrete stored record used by the witnesses. -/
def wRecord : StoreRecord :=
  { short_id := "abcdefg"
    destination_url := wUrl
    access_count := 3
    original_filename := "Invoice"
    content_type := "application/pdf"
    created_at := "2024-12-31T00:00:00"
    last_accessed := none
    last_user_agent := none
    last_ip_hash := none }

/-- Concrete create request whose destination_url is not an absolute
URL. -/
def wBadCreateReq : HRequest :=
  { wReq ("api/create") with
      method := "POST"
      jsonBody := some [(("destination_url"), ("not-a-url"))] }

/-- The hexadecimal digit characters. -/
def hexChars : List Char := ("0123456789abcdef").data

theorem alnum62_lt (c : Char) (h : isAlnum62 c) : c.toNat < 128 := by
  rcases h with ⟨_, h⟩ | ⟨_, h⟩ | ⟨_, h⟩ <;> omega

theorem mem_alnum_ofNat (n : Nat) (hn : n < 128) :
    Char.ofNat n ∈ alnumChars ↔ isAlnum62 (Char.ofNat n) := by
  revert hn; revert n; decide

theorem ofNat_toNat_char (c : Char) : Char.ofNat c.toNat = c := by
  rcases c with ⟨v, hv⟩
  simp [Char.ofNat, Char.toNat, hv]
  rfl

theorem mem_alnum_iff (c : Char) : c ∈ alnumChars ↔ isAlnum62 c := by
  constructor
  · intro h
    fin_cases h <;> decide
  · intro h
    have hlt := alnum62_lt c h
    have := (mem_alnum_ofNat c.toNat hlt)
    rw [ofNat_toNat_char] at this
    exact this.mpr h

theorem create_go_collide (rand : Nat → Nat → Nat) (insertOk : Nat → Bool)
    (now destination_url : String) (description : Option String)
    (store : List StoreRecord) (n i : Nat) (calls : List StoreCall)
    (r : StoreRecord) (rs : List StoreRecord)
    (hl : storeSelect store (generate_short_code (rand i) SHORTLINK_LENGTH) = r :: rs) :
    create_go rand insertOk now destination_url description store (n+1) i calls
      = create_go rand insertOk now destination_url description store n (i+1)
          (calls ++ [.get (("shortlinks?short_id=eq.")
              ++ generate_short_code (rand i) SHORTLINK_LENGTH)]) := by
  simp only [create_go, hl, List.length_cons, gt_iff_lt, Nat.succ_pos, if_true]

theorem create_go_insert_fail (rand : Nat → Nat → Nat) (insertOk : Nat → Bool)
    (now destination_url : String) (description : Option String)
    (store : List StoreRecord) (n i : Nat) (calls : List StoreCall)
    (hl : storeSelect store (generate_short_code (rand i) SHORTLINK_LENGTH) = [])
    (hk : insertOk i = false) :
    create_go rand insertOk now destination_url description store (n+1) i calls
      = create_go rand insertOk now destination_url description store n (i+1)
          (calls ++ [.get (("shortlinks?short_id=eq.")
              ++ generate_short_code (rand i) SHORTLINK_LENGTH),
            .post ("shortlinks")]) := by
  simp only [create_go, hl, List.length_nil, gt_iff_lt, Nat.lt_irrefl,
    if_false, hk, List.append_assoc, List.singleton_append]
  simp

theorem create_go_insert_ok (rand : Nat → Nat → Nat) (insertOk : Nat → Bool)
    (now destination_url : String) (description : Option String)
    (store : List StoreRecord) (n i : Nat) (calls : List StoreCall)
    (hl : storeSelect store (generate_short_code (rand i) SHORTLINK_LENGTH) = [])
    (hk : insertOk i = true) :
    create_go rand insertOk now destination_url description store (n+1) i calls
      = (.ok (generate_short_code (rand i) SHORTLINK_LENGTH),
         store ++ [newRecord destination_url description now
            (generate_short_code (rand i) SHORTLINK_LENGTH)],
         calls ++ [.get (("shortlinks?short_id=eq.")
              ++ generate_short_code (rand i) SHORTLINK_LENGTH),
            .post ("shortlinks")]) := by
  simp only [create_go, hl, List.length_nil, gt_iff_lt, Nat.lt_irrefl,
    if_false, hk, if_true, List.append_assoc, List.singleton_append]

theorem create_go_result (rand : Nat → Nat → Nat) (insertOk : Nat → Bool)
    (now destination_url : String) (description : Option String)
    (store : List StoreRecord) :
    ∀ (fuel i : Nat) (calls : List StoreCall),
      (match firstOk (attemptOk rand insertOk store) fuel i with
       | some j =>
          (create_go rand insertOk now destination_url description store fuel i calls).1 =
            .ok (generate_short_code (rand j) SHORTLINK_LENGTH) ∧
          (create_go rand insertOk now destination_url description store fuel i calls).2.1 =
            store ++ [newRecord destination_url description now
                        (generate_short_code (rand j) SHORTLINK_LENGTH)]
       | none =>
          (create_go rand insertOk now destination_url description store fuel i calls).1 =
            .error ("Impossibile generare shortlink unico") ∧
          (create_go rand insertOk now destination_url description store fuel i calls).2.1 =
            store) := by
  intro fuel
  induction fuel with
  | zero =>
    intro i calls
    simp [create_go, firstOk]
  | succ n ih =>
    intro i calls
    cases hl : storeSelect store (generate_short_code (rand i) SHORTLINK_LENGTH) with
    | nil =>
      cases hk : insertOk i with
      | true =>
        have hfk : firstOk (attemptOk rand insertOk store) (n+1) i = some i := by
          simp [firstOk, attemptOk, hl, hk]
        rw [hfk, create_go_insert_ok rand insertOk now destination_url description
          store n i calls hl hk]
        exact ⟨rfl, rfl⟩
      | false =>
        have hfk : firstOk (attemptOk rand insertOk store) (n+1) i
            = firstOk (attemptOk rand insertOk store) n (i+1) := by
          simp [firstOk, attemptOk, hl, hk]
        rw [hfk, create_go_insert_fail rand insertOk now destination_url description
          store n i calls hl hk]
        exact ih (i+1) _
    | cons r rs =>
      have hfk : firstOk (attemptOk rand insertOk store) (n+1) i
          = firstOk (attemptOk rand insertOk store) n (i+1) := by
        simp [firstOk, attemptOk, hl]
      rw [hfk, create_go_collide rand insertOk now destination_url description
        store n i calls r rs hl]
      exact ih (i+1) _

theorem create_go_get_calls (rand : Nat → Nat → Nat) (insertOk : Nat → Bool)
    (now destination_url : String) (description : Option String)
    (store : List StoreRecord) :
    ∀ (fuel i : Nat) (calls : List StoreCall),
      ((create_go rand insertOk now destination_url description store
          fuel i calls).2.2.filter StoreCall.isGet).length ≤
        (calls.filter StoreCall.isGet).length + fuel := by
  intro fuel
  induction fuel with
  | zero =>
    intro i calls
    simp [create_go]
  | succ n ih =>
    intro i calls
    cases hl : storeSelect store (generate_short_code (rand i) SHORTLINK_LENGTH) with
    | nil =>
      cases hk : insertOk i with
      | true =>
        rw [create_go_insert_ok rand insertOk now destination_url description
          store n i calls hl hk]
        simp [List.filter_append, StoreCall.isGet]
      | false =>
        rw [create_go_insert_fail rand insertOk now destination_url description
          store n i calls hl hk]
        have := ih (i+1) (calls ++ [.get (("shortlinks?short_id=eq.")
              ++ generate_short_code (rand i) SHORTLINK_LENGTH),
            .post ("shortlinks")])
        refine le_trans this ?_
        simp [List.filter_append, StoreCall.isGet]
        omega
    | cons r rs =>
      rw [create_go_collide rand insertOk now destination_url description
        store n i calls r rs hl]
      have := ih (i+1) (calls ++ [.get (("shortlinks?short_id=eq.")
              ++ generate_short_code (rand i) SHORTLINK_LENGTH)])
      refine le_trans this ?_
      simp [List.filter_append, StoreCall.isGet]
      omega

theorem getD_mem_of_lt {α : Type} (l : List α) (n : Nat) (d : α)
    (h : n < l.length) : l.getD n d ∈ l := by
  rw [List.getD_eq_getElem?_getD, List.getElem?_eq_getElem h]
  exact List.getElem_mem h

theorem validate_short_code_iff (s : String) :
    validate_short_code s = true ↔
      (s.length = 7 ∧ ∀ c ∈ s.data, isAlnum62 c) := by
  unfold validate_short_code
  by_cases h7 : s.length = 7
  · have hne : s ≠ ("") := by
      intro h
      rw [h] at h7
      simp at h7
    rw [if_neg (by simp [hne, h7, SHORTLINK_LENGTH])]
    rw [List.all_eq_true]
    constructor
    · intro h
      refine ⟨h7, fun c hc => ?_⟩
      have := h c hc
      rw [← mem_alnum_iff]
      simpa using this
    · intro ⟨_, h⟩ c hc
      have := (mem_alnum_iff c).mpr (h c hc)
      simpa using this
  · rw [if_pos (by simp [h7, SHORTLINK_LENGTH])]
    simp [h7]

theorem generate_short_code_valid (rand : Nat → Nat) :
    validate_short_code (generate_short_code rand SHORTLINK_LENGTH) = true := by
  rw [validate_short_code_iff]
  constructor
  · show (generate_short_code rand SHORTLINK_LENGTH).data.length = 7
    show ((List.range SHORTLINK_LENGTH).map
      (fun i => alnumChars.getD (rand i % alnumChars.length) 'a')).length = 7
    simp [SHORTLINK_LENGTH]
  · intro c hc
    have hc2 : c ∈ (List.range SHORTLINK_LENGTH).map
        (fun i => alnumChars.getD (rand i % alnumChars.length) 'a') := hc
    simp only [List.mem_map, List.mem_range] at hc2
    obtain ⟨i, _, rfl⟩ := hc2
    have h62 : (0:Nat) < alnumChars.length := by decide
    exact (mem_alnum_iff _).mp (getD_mem_of_lt _ _ _ (Nat.mod_lt _ h62))

theorem firstOk_some (ok : Nat → Bool) :
    ∀ (n i j : Nat), firstOk ok n i = some j → ok j = true := by
  intro n
  induction n with
  | zero =>
    intro i j h
    simp [firstOk] at h
  | succ m ih =>
    intro i j h
    by_cases hi : ok i
    · simp [firstOk, hi] at h
      rw [← h]
      exact hi
    · simp [firstOk, hi] at h
      exact ih (i+1) j h

theorem create_shortlink_result (rand : Nat → Nat → Nat) (insertOk : Nat → Bool)
    (now destination_url : String) (description : Option String)
    (store : List StoreRecord) :
    (match firstOk (attemptOk rand insertOk store) 5 0 with
     | some j =>
        (create_shortlink rand insertOk now destination_url description store).1 =
          .ok (generate_short_code (rand j) SHORTLINK_LENGTH) ∧
        (create_shortlink rand insertOk now destination_url description store).2.1 =
          store ++ [newRecord destination_url description now
                      (generate_short_code (rand j) SHORTLINK_LENGTH)]
     | none =>
        (create_shortlink rand insertOk now destination_url description store).1 =
          .error ("Impossibile generare shortlink unico") ∧
        (create_shortlink rand insertOk now destination_url description store).2.1 =
          store) :=
  create_go_result rand insertOk now destination_url description store 5 0 []

theorem storeSelect_append (s t : List StoreRecord) (c : String) :
    storeSelect (s ++ t) c = storeSelect s c ++ storeSelect t c := by
  simp [storeSelect, List.filter_append]

theorem storeSelect_newRecord (d : String) (descr : Option String)
    (now c : String) :
    storeSelect [newRecord d descr now c] c = [newRecord d descr now c] := by
  simp [storeSelect, newRecord]

/-- C1: create_shortlink attempts at most 5 times; each attempt
generates a fresh candidate code and queries the store for an existing
record with that short_id; only if none exists (and the insert returns
a representation) does it insert a record with access_count 0, the
given destination and description, and the current UTC timestamp as
created_at, returning that code; if all 5 attempts collide or the
insert fails each time, it fails with the GenerationExhausted error.
The first conjunct characterises the result and the resulting store by
the first successful attempt among 0..4; the second bounds the number
of uniqueness queries issued by 5. -/
theorem C1_create_shortlink_spec (rand : Nat → Nat → Nat) (insertOk : Nat → Bool)
    (now destination_url : String) (description : Option String)
    (store : List StoreRecord) :
    (match firstOk (attemptOk rand insertOk store) 5 0 with
     | some j =>
        (create_shortlink rand insertOk now destination_url description store).1 =
          .ok (generate_short_code (rand j) SHORTLINK_LENGTH) ∧
        (create_shortlink rand insertOk now destination_url description store).2.1 =
          store ++ [newRecord destination_url description now
                      (generate_short_code (rand j) SHORTLINK_LENGTH)]
     | none =>
        (create_shortlink rand insertOk now destination_url description store).1 =
          .error ("Impossibile generare shortlink unico") ∧
        (create_shortlink rand insertOk now destination_url description store).2.1 =
          store) ∧
    ((create_shortlink rand insertOk now destination_url description store).2.2.filter
        StoreCall.isGet).length ≤ 5 :=
  ⟨create_go_result rand insertOk now destination_url description store 5 0 [],
   by simpa using
     create_go_get_calls rand insertOk now destination_url description store 5 0 []⟩

/-- C3: validate_short_code returns true iff the string has length
exactly 7 and every character is in the 62-character alphanumeric
alphabet; in particular it is false for the empty string, for other
lengths, and for strings with a non-alphanumeric character. -/
theorem C3_validate_short_code_iff (s : String) :
    validate_short_code s = true ↔
      (s.length = 7 ∧ ∀ c ∈ s.data, isAlnum62 c) :=
  validate_short_code_iff s

/-- C10: with IP_SALT unset, hash_ip does not fail but falls back to
the hardcoded default salt studiocomanda_salt_2025: the result is the
first 16 characters of the digest of ip ++ default salt, agrees across
any two deployments with the variable unset, and is a deterministic
16-character hex string whenever the digest function yields
64-character hex output. -/
theorem C10_hash_ip_default_salt (getenv getenv2 : String → Option String)
    (sha : String → String) (ip : String)
    (h1 : getenv ("IP_SALT") = none) (h2 : getenv2 ("IP_SALT") = none)
    (hsha : ∀ s, (sha s).data.length = 64 ∧ ∀ c ∈ (sha s).data, c ∈ hexChars) :
    hash_ip getenv sha ip
      = String.mk ((sha (ip ++ ("studiocomanda_salt_2025"))).data.take 16) ∧
    hash_ip getenv sha ip = hash_ip getenv2 sha ip ∧
    (hash_ip getenv sha ip).length = 16 ∧
    ∀ c ∈ (hash_ip getenv sha ip).data, c ∈ hexChars := by
  have e1 : hash_ip getenv sha ip
      = String.mk ((sha (ip ++ ("studiocomanda_salt_2025"))).data.take 16) := by
    unfold hash_ip
    rw [h1]
    rfl
  have e2 : hash_ip getenv2 sha ip
      = String.mk ((sha (ip ++ ("studiocomanda_salt_2025"))).data.take 16) := by
    unfold hash_ip
    rw [h2]
    rfl
  refine ⟨e1, e1.trans e2.symm, ?_, ?_⟩
  · rw [e1]
    show ((sha (ip ++ ("studiocomanda_salt_2025"))).data.take 16).length = 16
    rw [List.length_take, (hsha _).1]
    decide
  · intro c hc
    rw [e1] at hc
    have hc2 : c ∈ (sha (ip ++ ("studiocomanda_salt_2025"))).data.take 16 := hc
    exact (hsha _).2 c (List.mem_of_mem_take hc2)

/-- Witness for C10 at a concrete environment, digest and address. -/
theorem C10_hash_ip_default_salt_witness :
    wGetenv ("IP_SALT") = none ∧
    (∀ s, (wSha s).data.length = 64 ∧ ∀ c ∈ (wSha s).data, c ∈ hexChars) ∧
    (hash_ip wGetenv wSha ("203.0.113.9")
      = String.mk ((wSha (("203.0.113.9") ++ ("studiocomanda_salt_2025"))).data.take 16) ∧
     hash_ip wGetenv wSha ("203.0.113.9") = hash_ip wGetenv wSha ("203.0.113.9") ∧
     (hash_ip wGetenv wSha ("203.0.113.9")).length = 16 ∧
     ∀ c ∈ (hash_ip wGetenv wSha ("203.0.113.9")).data, c ∈ hexChars) := by
  have hsha : ∀ s, (wSha s).data.length = 64 ∧ ∀ c ∈ (wSha s).data, c ∈ hexChars := by
    intro s
    refine ⟨by simp [wSha], ?_⟩
    intro c hc
    have hc2 : c ∈ List.replicate 64 'f' := by simpa [wSha] using hc
    have : c = 'f' := List.eq_of_mem_replicate hc2
    rw [this]
    decide
  exact ⟨rfl, hsha,
    C10_hash_ip_default_salt wGetenv wGetenv wSha ("203.0.113.9") rfl rfl hsha⟩

/-- C2: whenever create_shortlink returns a code for a destination URL,
that code passes validate_short_code, and resolving that code through
the handler against the resulting store issues a 302 redirect whose
Location is the same destination URL. -/
theorem C2_create_resolve_roundtrip (parse : String → UrlParts)
    (getenv : String → Option String) (sha : String → String)
    (o o2 : Oracle) (destination_url : String) (description : Option String)
    (store store2 : List StoreRecord) (c : String) (calls : List StoreCall)
    (req : HRequest)
    (hcreate : create_shortlink o.rand o.insertOk o.now destination_url
        description store = (.ok c, store2, calls))
    (hget : o2.getFails = false)
    (hpath : req.path = c) :
    validate_short_code c = true ∧
    (handler parse getenv sha o2 req store2).1.status = 302 ∧
    (handler parse getenv sha o2 req store2).1.headers
      = [(("Location"), destination_url)] := by
  have H := create_shortlink_result o.rand o.insertOk o.now destination_url
    description store
  cases hF : firstOk (attemptOk o.rand o.insertOk store) 5 0 with
  | none =>
    rw [hF] at H
    obtain ⟨H1, _⟩ := H
    rw [hcreate] at H1
    simp at H1
  | some j =>
    rw [hF] at H
    obtain ⟨H1, H2⟩ := H
    rw [hcreate] at H1 H2
    simp only at H1 H2
    obtain rfl : c = generate_short_code (o.rand j) SHORTLINK_LENGTH := by
      simpa using H1
    subst H2
    have hok := firstOk_some _ 5 0 j hF
    have hempty : (storeSelect store
        (generate_short_code (o.rand j) SHORTLINK_LENGTH)).isEmpty = true :=
      (Bool.and_eq_true_iff.mp (by simpa [attemptOk] using hok)).1
    have hnil : storeSelect store
        (generate_short_code (o.rand j) SHORTLINK_LENGTH) = [] := by
      cases hl : storeSelect store
          (generate_short_code (o.rand j) SHORTLINK_LENGTH) with
      | nil => rfl
      | cons a l =>
        rw [hl] at hempty
        simp at hempty
    have hval : validate_short_code req.path = true := by
      rw [hpath]
      exact generate_short_code_valid (o.rand j)
    have hlen : req.path.length = 7 :=
      ((validate_short_code_iff req.path).mp hval).1
    have hnc : ¬(req.path = ("api/create") ∧ req.method = ("POST")) := by
      rintro ⟨hp, _⟩
      rw [hp] at hlen
      exact absurd hlen (by decide)
    have hne : req.path ≠ ("") := by
      intro hp
      rw [hp] at hlen
      exact absurd hlen (by decide)
    have hle : req.path.length ≤ SHORTLINK_LENGTH := by
      rw [hlen]
      decide
    have hsel : storeSelect (store ++ [newRecord destination_url description
        o.now (generate_short_code (o.rand j) SHORTLINK_LENGTH)]) req.path
        = [newRecord destination_url description o.now
            (generate_short_code (o.rand j) SHORTLINK_LENGTH)] := by
      rw [hpath, storeSelect_append, hnil, storeSelect_newRecord,
        List.nil_append]
    refine ⟨generate_short_code_valid (o.rand j), ?_⟩
    unfold handler
    rw [if_neg hnc, if_pos ⟨hne, hle, hval⟩]
    dsimp only
    rw [if_neg (by simp [hget])]
    simp only [hsel]
    exact ⟨rfl, rfl⟩

/-- Witness for C2: the concrete oracle produces the code abcdefg on
an empty store; resolving it returns a 302 to the created URL. -/
theorem C2_create_resolve_roundtrip_witness :
    (create_shortlink wOracle.rand wOracle.insertOk wOracle.now wUrl
        (some ("Invoice")) []
      = (.ok ("abcdefg"),
         [newRecord wUrl (some ("Invoice")) wOracle.now ("abcdefg")],
         [.get (("shortlinks?short_id=eq.") ++ ("abcdefg")),
          .post ("shortlinks")])) ∧
    wOracle.getFails = false ∧
    (wReq ("abcdefg")).path = ("abcdefg") ∧
    (validate_short_code ("abcdefg") = true ∧
     (handler wParse wGetenv wSha wOracle (wReq ("abcdefg"))
        [newRecord wUrl (some ("Invoice")) wOracle.now ("abcdefg")]).1.status = 302 ∧
     (handler wParse wGetenv wSha wOracle (wReq ("abcdefg"))
        [newRecord wUrl (some ("Invoice")) wOracle.now ("abcdefg")]).1.headers
       = [(("Location"), wUrl)]) := by
  have hcreate : create_shortlink wOracle.rand wOracle.insertOk wOracle.now wUrl
      (some ("Invoice")) []
      = (.ok ("abcdefg"),
         [newRecord wUrl (some ("Invoice")) wOracle.now ("abcdefg")],
         [.get (("shortlinks?short_id=eq.") ++ ("abcdefg")),
          .post ("shortlinks")]) := by rfl
  exact ⟨hcreate, rfl, rfl,
    C2_create_resolve_roundtrip wParse wGetenv wSha wOracle wOracle wUrl
      (some ("Invoice")) [] _ ("abcdefg") _ (wReq ("abcdefg")) hcreate rfl rfl⟩

/-- C4: for a shape-valid code whose store lookup succeeds and returns
a record, the handler responds with a 302 redirect to the stored
destination_url whether the analytics PATCH fails or succeeds; a PATCH
failure is swallowed and never alters the response to the visitor. -/
theorem C4_redirect_despite_patch_failure (parse : String → UrlParts)
    (getenv : String → Option String) (sha : String → String)
    (o : Oracle) (req : HRequest) (store : List StoreRecord)
    (r : StoreRecord) (rs : List StoreRecord)
    (hval : validate_short_code req.path = true)
    (hget : o.getFails = false)
    (hsel : storeSelect store req.path = r :: rs) :
    ∀ b : Bool,
      (handler parse getenv sha { o with patchFails := b } req store).1
        = redirectResp r.destination_url := by
  intro b
  have hlen : req.path.length = 7 :=
    ((validate_short_code_iff req.path).mp hval).1
  have hnc : ¬(req.path = ("api/create") ∧ req.method = ("POST")) := by
    rintro ⟨hp, _⟩
    rw [hp] at hlen
    exact absurd hlen (by decide)
  have hne : req.path ≠ ("") := by
    intro hp
    rw [hp] at hlen
    exact absurd hlen (by decide)
  have hle : req.path.length ≤ SHORTLINK_LENGTH := by
    rw [hlen]
    decide
  unfold handler
  rw [if_neg hnc, if_pos ⟨hne, hle, hval⟩]
  dsimp only
  rw [if_neg (by simp [hget])]
  simp only [hsel]

/-- Witness for C4: the concrete code abcdefg against a one-record
store, once with the PATCH failing and once with it succeeding. -/
theorem C4_redirect_despite_patch_failure_witness :
    validate_short_code (wReq ("abcdefg")).path = true ∧
    wOracle.getFails = false ∧
    storeSelect [wRecord] (wReq ("abcdefg")).path = wRecord :: [] ∧
    (handler wParse wGetenv wSha { wOracle with patchFails := true }
        (wReq ("abcdefg")) [wRecord]).1 = redirectResp wRecord.destination_url ∧
    (handler wParse wGetenv wSha { wOracle with patchFails := false }
        (wReq ("abcdefg")) [wRecord]).1 = redirectResp wRecord.destination_url := by
  have h1 : validate_short_code (wReq ("abcdefg")).path = true := by decide
  have h3 : storeSelect [wRecord] (wReq ("abcdefg")).path = wRecord :: [] := rfl
  exact ⟨h1, rfl, h3,
    C4_redirect_despite_patch_failure wParse wGetenv wSha wOracle
      (wReq ("abcdefg")) [wRecord] wRecord [] h1 rfl h3 true,
    C4_redirect_despite_patch_failure wParse wGetenv wSha wOracle
      (wReq ("abcdefg")) [wRecord] wRecord [] h1 rfl h3 false⟩

/-- C5: for a POST api/create request whose body is missing, lacks the
destination_url key, or whose destination_url parses without a scheme
or without a host, the handler responds 400 with an error JSON body
and issues no store call at all. -/
theorem C5_create_invalid_input_400 (parse : String → UrlParts)
    (getenv : String → Option String) (sha : String → String)
    (o : Oracle) (req : HRequest) (store : List StoreRecord)
    (hpath : req.path = ("api/create")) (hmeth : req.method = ("POST"))
    (hbad : (req.jsonBody.isNone || (req.jsonBody.getD []).isEmpty
          || (dictGet (req.jsonBody.getD []) ("destination_url")).isNone) = true
      ∨ ((req.jsonBody.isNone || (req.jsonBody.getD []).isEmpty
          || (dictGet (req.jsonBody.getD []) ("destination_url")).isNone) = false
        ∧ ((parse ((dictGet (req.jsonBody.getD [])
              ("destination_url")).getD (""))).scheme = ("")
           ∨ (parse ((dictGet (req.jsonBody.getD [])
              ("destination_url")).getD (""))).netloc = ("")))) :
    (handler parse getenv sha o req store).1.status = 400 ∧
    (∃ msg, (handler parse getenv sha o req store).1.body
        = RBody.json [(("error"), Jv.s msg)]) ∧
    (handler parse getenv sha o req store).2.2 = [] := by
  unfold handler
  rw [if_pos ⟨hpath, hmeth⟩]
  rcases hbad with hb | ⟨hb, hu⟩
  · rw [if_pos hb]
    exact ⟨rfl, ⟨_, rfl⟩, rfl⟩
  · rw [if_neg (by rw [hb]; simp)]
    dsimp only
    rw [if_pos hu]
    exact ⟨rfl, ⟨_, rfl⟩, rfl⟩

/-- Witness for C5: a POST api/create with no JSON body, and one whose
destination_url is the non-absolute string not-a-url. -/
theorem C5_create_invalid_input_400_witness :
    ({ wReq ("api/create") with method := ("POST") } : HRequest).path
        = ("api/create") ∧
    wBadCreateReq.path = ("api/create") ∧
    ((handler wParse wGetenv wSha wOracle
        { wReq ("api/create") with method := ("POST") } []).1.status = 400 ∧
     (∃ msg, (handler wParse wGetenv wSha wOracle
        { wReq ("api/create") with method := ("POST") } []).1.body
          = RBody.json [(("error"), Jv.s msg)]) ∧
     (handler wParse wGetenv wSha wOracle
        { wReq ("api/create") with method := ("POST") } []).2.2 = []) ∧
    ((handler wParse wGetenv wSha wOracle wBadCreateReq []).1.status = 400 ∧
     (∃ msg, (handler wParse wGetenv wSha wOracle wBadCreateReq []).1.body
        = RBody.json [(("error"), Jv.s msg)]) ∧
     (handler wParse wGetenv wSha wOracle wBadCreateReq []).2.2 = []) := by
  exact ⟨rfl, rfl,
    C5_create_invalid_input_400 wParse wGetenv wSha wOracle _ [] rfl rfl
      (.inl rfl),
    C5_create_invalid_input_400 wParse wGetenv wSha wOracle wBadCreateReq [] rfl rfl
      (.inr ⟨rfl, .inl rfl⟩)⟩

/-- Counterexample to C6: for the GET request with the shape-invalid
path ab, the handler responds 404 with the generic not-found page, not
a 400-class InvalidInput response (though it indeed issues no store
call). -/
theorem C6_counterexample :
    (handler wParse wGetenv wSha wOracle (wReq ("ab")) []).1
      = render_error_page 404 ("Pagina non trovata") ∧
    (handler wParse wGetenv wSha wOracle (wReq ("ab")) []).1.status ≠ 400 ∧
    (handler wParse wGetenv wSha wOracle (wReq ("ab")) []).2.2 = [] :=
  ⟨rfl, by decide, rfl⟩

/-- C6 amended: for every GET request whose path fails
validate_short_code and is not the status route, the handler falls
through to the 404 not-found page and issues no store call (the code
has no separate 400 branch for shape-invalid codes). -/
theorem C6_amended_404_no_store (parse : String → UrlParts)
    (getenv : String → Option String) (sha : String → String)
    (o : Oracle) (req : HRequest) (store : List StoreRecord)
    (hmeth : req.method = ("GET"))
    (hval : validate_short_code req.path = false)
    (hstat : req.path ≠ ("status")) :
    (handler parse getenv sha o req store).1
      = render_error_page 404 ("Pagina non trovata") ∧
    (handler parse getenv sha o req store).2.2 = [] := by
  unfold handler
  rw [if_neg (by rintro ⟨_, hm⟩; rw [hmeth] at hm; exact absurd hm (by decide)),
    if_neg (by rintro ⟨_, _, hv⟩; rw [hval] at hv; exact absurd hv (by decide)),
    if_neg hstat]
  exact ⟨rfl, rfl⟩

/-- Witness for C6 amended at the concrete path ab. -/
theorem C6_amended_404_no_store_witness :
    (wReq ("ab")).method = ("GET") ∧
    validate_short_code (wReq ("ab")).path = false ∧
    (wReq ("ab")).path ≠ ("status") ∧
    ((handler wParse wGetenv wSha wOracle (wReq ("ab")) [wRecord]).1
        = render_error_page 404 ("Pagina non trovata") ∧
     (handler wParse wGetenv wSha wOracle (wReq ("ab")) [wRecord]).2.2 = []) :=
  ⟨rfl, by decide, by decide,
   C6_amended_404_no_store wParse wGetenv wSha wOracle (wReq ("ab")) [wRecord]
     rfl (by decide) (by decide)⟩

/-- Counterexample to C7: for GET on the root path, the handler does
not respond 200 with the health JSON; it falls through to the 404
not-found page (only the status path returns the health JSON). -/
theorem C7_counterexample :
    (handler wParse wGetenv wSha wOracle (wReq ("")) []).1.status = 404 ∧
    (handler wParse wGetenv wSha wOracle (wReq ("")) []).1.status ≠ 200 ∧
    (handler wParse wGetenv wSha wOracle (wReq ("")) []).1.body
      = RBody.page ("Pagina non trovata") :=
  ⟨rfl, by decide, rfl⟩

/-- C7 amended: GET on the status path responds 200 with the JSON
containing status ok, the service name, the version and a timestamp,
issuing no store call; GET on the root path instead falls through to
the 404 not-found page. -/
theorem C7_amended_status_ok_root_404 (parse : String → UrlParts)
    (getenv : String → Option String) (sha : String → String)
    (o : Oracle) (req1 req2 : HRequest) (store : List StoreRecord)
    (h1 : req1.path = ("status")) (h2 : req2.path = ("")) :
    (handler parse getenv sha o req1 store).1
      = jsonResp 200 [(("status"), .s ("ok")),
          (("service"), .s ("Studio Comanda Shortlinks")),
          (("version"), .s ("1.0")),
          (("timestamp"), .s o.now)] ∧
    (handler parse getenv sha o req1 store).2.2 = [] ∧
    (handler parse getenv sha o req2 store).1
      = render_error_page 404 ("Pagina non trovata") := by
  have hr1 : handler parse getenv sha o req1 store
      = (jsonResp 200 [(("status"), .s ("ok")),
          (("service"), .s ("Studio Comanda Shortlinks")),
          (("version"), .s ("1.0")),
          (("timestamp"), .s o.now)], store, []) := by
    unfold handler
    rw [if_neg (by rintro ⟨hp, _⟩; rw [h1] at hp; exact absurd hp (by decide)),
      if_neg (by rintro ⟨_, _, hv⟩; rw [h1] at hv; exact absurd hv (by decide)),
      if_pos h1]
  have hr2 : handler parse getenv sha o req2 store
      = (render_error_page 404 ("Pagina non trovata"), store, []) := by
    unfold handler
    rw [if_neg (by rintro ⟨hp, _⟩; rw [h2] at hp; exact absurd hp (by decide)),
      if_neg (by rintro ⟨hne, _, _⟩; exact hne h2),
      if_neg (by rw [h2]; decide)]
  rw [hr1, hr2]
  exact ⟨rfl, rfl, rfl⟩

/-- Witness for C7 amended at the concrete paths status and root. -/
theorem C7_amended_status_ok_root_404_witness :
    (wReq ("status")).path = ("status") ∧
    (wReq ("")).path = ("") ∧
    ((handler wParse wGetenv wSha wOracle (wReq ("status")) []).1
        = jsonResp 200 [(("status"), .s ("ok")),
            (("service"), .s ("Studio Comanda Shortlinks")),
            (("version"), .s ("1.0")),
            (("timestamp"), .s wOracle.now)] ∧
     (handler wParse wGetenv wSha wOracle (wReq ("status")) []).2.2 = [] ∧
     (handler wParse wGetenv wSha wOracle (wReq ("")) []).1
        = render_error_page 404 ("Pagina non trovata")) :=
  ⟨rfl, rfl,
   C7_amended_status_ok_root_404 wParse wGetenv wSha wOracle
     (wReq ("status")) (wReq ("")) [] rfl rfl⟩

/-- Counterexample to C8: the handler has no analytics route at all;
GET on the analytics path returns 404 both with a wrong auth value
(the claim expects 401) and with the configured admin secret itself
(the claim expects 200). -/
theorem C8_counterexample :
    (handler wParse wGetenv wSha wOracle
        { wReq ("analytics") with queryAuth := some ("wrong") } []).1.status
      = 404 ∧
    (handler wParse wGetenv wSha wOracle
        { wReq ("analytics") with queryAuth := some ("wrong") } []).1.status
      ≠ 401 ∧
    (handler wParse wGetenv wSha wOracle
        { wReq ("analytics") with
            queryAuth := some (ADMIN_PASSWORD wGetenv) } []).1.status = 404 ∧
    (handler wParse wGetenv wSha wOracle
        { wReq ("analytics") with
            queryAuth := some (ADMIN_PASSWORD wGetenv) } []).1.status ≠ 200 :=
  ⟨rfl, by decide, rfl, by decide⟩

/-- C8 amended: the handler defines no analytics route: a request for
the analytics path falls through to the 404 not-found page, issues no
store call, and its outcome is independent of the auth query
parameter; the configured admin secret is never consulted. -/
theorem C8_amended_no_analytics_route (parse : String → UrlParts)
    (getenv : String → Option String) (sha : String → String)
    (o : Oracle) (req : HRequest) (store : List StoreRecord)
    (h : req.path = ("analytics")) :
    (handler parse getenv sha o req store).1
      = render_error_page 404 ("Pagina non trovata") ∧
    (handler parse getenv sha o req store).2.2 = [] ∧
    ∀ a, handler parse getenv sha o { req with queryAuth := a } store
        = handler parse getenv sha o req store := by
  have hgen : ∀ r : HRequest, r.path = ("analytics") →
      handler parse getenv sha o r store
        = (render_error_page 404 ("Pagina non trovata"), store, []) := by
    intro r hr
    unfold handler
    rw [if_neg (by rintro ⟨hp, _⟩; rw [hr] at hp; exact absurd hp (by decide)),
      if_neg (by rintro ⟨_, _, hv⟩; rw [hr] at hv; exact absurd hv (by decide)),
      if_neg (by rw [hr]; decide)]
  refine ⟨by rw [hgen req h], by rw [hgen req h], fun a => ?_⟩
  rw [hgen req h, hgen { req with queryAuth := a } h]

/-- Witness for C8 amended at the concrete analytics path, with the
independence conjunct instantiated at a concrete auth value. -/
theorem C8_amended_no_analytics_route_witness :
    (wReq ("analytics")).path = ("analytics") ∧
    ((handler wParse wGetenv wSha wOracle (wReq ("analytics")) []).1
        = render_error_page 404 ("Pagina non trovata") ∧
     (handler wParse wGetenv wSha wOracle (wReq ("analytics")) []).2.2 = [] ∧
     handler wParse wGetenv wSha wOracle
        { wReq ("analytics") with queryAuth := some ("wrong") } []
       = handler wParse wGetenv wSha wOracle (wReq ("analytics")) []) := by
  have H := C8_amended_no_analytics_route wParse wGetenv wSha wOracle
    (wReq ("analytics")) [] rfl
  exact ⟨rfl, H.1, H.2.1, H.2.2 (some ("wrong"))⟩

/-- Counterexample to C9: the 400 response of the create endpoint for
a missing body carries no CORS headers at all. -/
theorem C9_counterexample :
    (handler wParse wGetenv wSha wOracle
        { wReq ("api/create") with method := ("POST") } []).1.status = 400 ∧
    (handler wParse wGetenv wSha wOracle
        { wReq ("api/create") with method := ("POST") } []).1.headers = [] ∧
    ¬ ((("Access-Control-Allow-Origin"), ("*"))
        ∈ (handler wParse wGetenv wSha wOracle
            { wReq ("api/create") with method := ("POST") } []).1.headers) :=
  ⟨rfl, rfl, by decide⟩

/-- C9 amended: on the create endpoint, only the 200 success response
carries the three CORS headers; every non-200 response (the 400s and
the 500) carries no extra headers, because add_cors_headers is applied
only on the success path. -/
theorem C9_amended_cors_only_success (parse : String → UrlParts)
    (getenv : String → Option String) (sha : String → String)
    (o : Oracle) (req : HRequest) (store : List StoreRecord)
    (hpath : req.path = ("api/create")) (hmeth : req.method = ("POST")) :
    ((handler parse getenv sha o req store).1.status = 200 →
      (handler parse getenv sha o req store).1.headers = corsHeaders) ∧
    ((handler parse getenv sha o req store).1.status ≠ 200 →
      (handler parse getenv sha o req store).1.headers = []) := by
  unfold handler
  rw [if_pos ⟨hpath, hmeth⟩]
  by_cases hd : (req.jsonBody.isNone || (req.jsonBody.getD []).isEmpty
      || (dictGet (req.jsonBody.getD []) ("destination_url")).isNone) = true
  · rw [if_pos hd]
    exact ⟨fun h => by simp [jsonResp] at h, fun _ => rfl⟩
  · rw [if_neg hd]
    dsimp only
    by_cases hu : (parse ((dictGet (req.jsonBody.getD [])
          ("destination_url")).getD (""))).scheme = ("")
        ∨ (parse ((dictGet (req.jsonBody.getD [])
          ("destination_url")).getD (""))).netloc = ("")
    · rw [if_pos hu]
      exact ⟨fun h => by simp [jsonResp] at h, fun _ => rfl⟩
    · rw [if_neg hu]
      rcases hres : create_shortlink o.rand o.insertOk o.now
          ((dictGet (req.jsonBody.getD []) ("destination_url")).getD (""))
          (some ((dictGet (req.jsonBody.getD [])
            ("description")).getD ("Generato via API")))
          store with ⟨res, store2, calls2⟩
      cases res with
      | error e =>
        simp only [hres]
        exact ⟨fun h => by simp [jsonResp] at h, fun _ => rfl⟩
      | ok code =>
        simp only [hres]
        exact ⟨fun _ => by simp [add_cors_headers, jsonResp],
          fun h => absurd rfl h⟩

/-- Witness for C9 amended, instantiated at a concrete well-formed
create request (whose response is the CORS-carrying 200) and applied
through both implications. -/
theorem C9_amended_cors_only_success_witness :
    wCreateReq.path = ("api/create") ∧
    wCreateReq.method = ("POST") ∧
    ((handler wParse wGetenv wSha wOracle wCreateReq []).1.status = 200 →
      (handler wParse wGetenv wSha wOracle wCreateReq []).1.headers
        = corsHeaders) ∧
    ((handler wParse wGetenv wSha wOracle wCreateReq []).1.status ≠ 200 →
      (handler wParse wGetenv wSha wOracle wCreateReq []).1.headers = []) ∧
    (handler wParse wGetenv wSha wOracle wCreateReq []).1.status = 200 := by
  have H := C9_amended_cors_only_success wParse wGetenv wSha wOracle
    wCreateReq [] rfl rfl
  exact ⟨rfl, rfl, H.1, H.2, rfl⟩

end Shortlink
